import Mathlib

/-!
Verification of the user-management CRUD service: a shallow embedding of the
validation core (Israeli-ID checksum, field validators, sanitizer, the
Marshmallow create-schema pipeline), the response formatter, and the
repository layer, together with theorems settling the specification claims.

Python strings are modelled as lists of characters (`PyStr`) so that
`str.strip` and friends are explicit executable functions.
-/

/-- Python strings, modelled as lists of characters. -/
abbrev PyStr := List Char

/-- Conversion from a Lean string literal to the `PyStr` model. -/
def toPy (s : String) : PyStr := s.data

/-- The whitespace characters removed by Python `str.strip`
(space, tab, newline, carriage return, vertical tab, form feed). -/
def pyIsSpace (c : Char) : Bool :=
  c.toNat = 32 || c.toNat = 9 || c.toNat = 10 || c.toNat = 13 ||
    c.toNat = 11 || c.toNat = 12

/-- Left part of Python `str.strip`. -/
def lstrip (s : PyStr) : PyStr := s.dropWhile pyIsSpace

/-- Right part of Python `str.strip`. -/
def rstrip (s : PyStr) : PyStr := (s.reverse.dropWhile pyIsSpace).reverse

/-- Python `str.strip`: remove leading and trailing whitespace. -/
def pyStrip (s : PyStr) : PyStr := rstrip (lstrip s)

/-- Python `str.isdigit` (ASCII fragment): non-empty and all digits. -/
def pyIsDigit (s : PyStr) : Bool := !s.isEmpty && s.all Char.isDigit

/-- Numeric value of a digit character (`int(c)` in Python). -/
def digitVal (c : Char) : Nat := c.toNat - 48

namespace ErrorMessages

/-- `ErrorMessages.ISRAELI_ID_EMPTY` from `lib/messages.py`. -/
def ISRAELI_ID_EMPTY : String := "Israeli ID must be a non-empty string"

/-- `ErrorMessages.ISRAELI_ID_NOT_DIGITS` from `lib/messages.py`. -/
def ISRAELI_ID_NOT_DIGITS : String := "Israeli ID must contain only digits"

/-- `ErrorMessages.ISRAELI_ID_WRONG_LENGTH` from `lib/messages.py`. -/
def ISRAELI_ID_WRONG_LENGTH : String := "Israeli ID must be exactly 9 digits"

/-- `ErrorMessages.ISRAELI_ID_INVALID_CHECKSUM` from `lib/messages.py`. -/
def ISRAELI_ID_INVALID_CHECKSUM : String := "Invalid Israeli ID checksum"

/-- `ErrorMessages.PHONE_EMPTY` from `lib/messages.py`. -/
def PHONE_EMPTY : String := "Phone number must be a non-empty string"

/-- `ErrorMessages.PHONE_NO_PLUS` from `lib/messages.py`. -/
def PHONE_NO_PLUS : String := "Phone number must start with +"

/-- `ErrorMessages.PHONE_WRONG_LENGTH` from `lib/messages.py`. -/
def PHONE_WRONG_LENGTH : String := "Phone number must be between 8-16 characters total"

/-- `ErrorMessages.PHONE_NOT_DIGITS` from `lib/messages.py`. -/
def PHONE_NOT_DIGITS : String := "Phone number must contain only digits after +"

/-- `ErrorMessages.NAME_NOT_STRING` from `lib/messages.py`. -/
def NAME_NOT_STRING : String := "Name must be a string"

/-- `ErrorMessages.NAME_EMPTY` from `lib/messages.py`. -/
def NAME_EMPTY : String := "Name cannot be empty"

/-- `ErrorMessages.NAME_TOO_LONG` from `lib/messages.py`. -/
def NAME_TOO_LONG : String := "Name must not exceed 100 characters"

/-- `ErrorMessages.ADDRESS_NOT_STRING` from `lib/messages.py`. -/
def ADDRESS_NOT_STRING : String := "Address must be a string"

/-- `ErrorMessages.ADDRESS_EMPTY` from `lib/messages.py`. -/
def ADDRESS_EMPTY : String := "Address cannot be empty"

/-- `ErrorMessages.ADDRESS_TOO_LONG` from `lib/messages.py`. -/
def ADDRESS_TOO_LONG : String := "Address must not exceed 200 characters"

/-- `ErrorMessages.MISSING_REQUIRED_FIELDS` from `lib/messages.py`. -/
def MISSING_REQUIRED_FIELDS : String := "Missing required fields"

/-- `ErrorMessages.VALIDATION_FAILED` from `lib/messages.py`. -/
def VALIDATION_FAILED : String := "Validation failed"

/-- `ErrorMessages.USER_ALREADY_EXISTS` from `lib/messages.py`. -/
def USER_ALREADY_EXISTS : String := "User already exists"

/-- `ErrorMessages.USER_NOT_FOUND` from `lib/messages.py`. -/
def USER_NOT_FOUND : String := "User not found"

end ErrorMessages

/-- Marshmallow's invalid-type message raised by `fields.String._deserialize`
when the supplied value is not a string. -/
def NOT_A_VALID_STRING : String := "Not a valid string."

namespace UserValidator

/-- The loop body of `validate_israeli_id` in `lib/validators.py`: running
index-weighted transform and sum over the first characters (`id_str[:-1]`),
starting at index `i`. -/
def luhnAdd : Nat → PyStr → Nat
  | _, [] => 0
  | i, c :: rest =>
    let multiplier := if i % 2 = 0 then 1 else 2
    let result := digitVal c * multiplier
    (if result > 9 then result / 10 + result % 10 else result) + luhnAdd (i + 1) rest

/-- The checks of `UserValidator.validate_israeli_id` that run on the
stripped string (`lib/validators.py` lines 37-62). -/
def israeliIdChecks (s : PyStr) : Bool × Option String :=
  if !(pyIsDigit s) then (false, some ErrorMessages.ISRAELI_ID_NOT_DIGITS)
  else if s.length ≠ 9 then (false, some ErrorMessages.ISRAELI_ID_WRONG_LENGTH)
  else
    let total := luhnAdd 0 s.dropLast
    let expected_checksum := (10 - total % 10) % 10
    let actual_checksum := digitVal (s.getLastD (Char.ofNat 48))
    if expected_checksum ≠ actual_checksum then
      (false, some ErrorMessages.ISRAELI_ID_INVALID_CHECKSUM)
    else (true, none)

/-- `UserValidator.validate_israeli_id` from `lib/validators.py`. -/
def validate_israeli_id (id_str : PyStr) : Bool × Option String :=
  if id_str.isEmpty then (false, some ErrorMessages.ISRAELI_ID_EMPTY)
  else israeliIdChecks (pyStrip id_str)

/-- The checks of `UserValidator.validate_phone_number` that run on the
stripped string (`lib/validators.py` lines 82-94). -/
def phoneChecks (p : PyStr) : Bool × Option String :=
  if !(match p with | [] => false | c :: _ => c = '+') then
    (false, some ErrorMessages.PHONE_NO_PLUS)
  else if p.length < 9 || p.length > 17 then
    (false, some ErrorMessages.PHONE_WRONG_LENGTH)
  else if !(pyIsDigit (p.drop 1)) then
    (false, some ErrorMessages.PHONE_NOT_DIGITS)
  else (true, none)

/-- `UserValidator.validate_phone_number` from `lib/validators.py`. -/
def validate_phone_number (phone : PyStr) : Bool × Option String :=
  if phone.isEmpty then (false, some ErrorMessages.PHONE_EMPTY)
  else phoneChecks (pyStrip phone)

/-- `UserValidator.validate_name` from `lib/validators.py`
(string input; the non-string branch is captured at the schema layer). -/
def validate_name (name : PyStr) : Bool × Option String :=
  if name.isEmpty || (pyStrip name).isEmpty then
    (false, some ErrorMessages.NAME_EMPTY)
  else if (pyStrip name).length > 100 then (false, some ErrorMessages.NAME_TOO_LONG)
  else (true, none)

/-- `UserValidator.validate_address` from `lib/validators.py`
(string input; the non-string branch is captured at the schema layer). -/
def validate_address (address : PyStr) : Bool × Option String :=
  if address.isEmpty || (pyStrip address).isEmpty then
    (false, some ErrorMessages.ADDRESS_EMPTY)
  else if (pyStrip address).length > 200 then (false, some ErrorMessages.ADDRESS_TOO_LONG)
  else (true, none)

end UserValidator

/-- Modelled from the spec, section 4.1 (the claim compares the code against
this wording): the transform of one digit value at one index — multiply by 1
at an even index and by 2 at an odd index, and replace a product over 9 by
the sum of its two decimal digits. -/
def specTransform (i d : Nat) : Nat :=
  let product := d * (if i % 2 = 0 then 1 else 2)
  if product > 9 then product / 10 + product % 10 else product

/-- Modelled from the spec, section 4.1 (the claim compares the code against
this wording): given the nine digit values of a candidate ID, transform the
digits at indices 0-7, sum the 8 results, and accept exactly when
`(10 - (sum mod 10)) mod 10` equals the 9th digit. -/
def specChecksumValid (ds : List Nat) : Bool :=
  let total :=
    specTransform 0 (ds.getD 0 0) + specTransform 1 (ds.getD 1 0) +
    specTransform 2 (ds.getD 2 0) + specTransform 3 (ds.getD 3 0) +
    specTransform 4 (ds.getD 4 0) + specTransform 5 (ds.getD 5 0) +
    specTransform 6 (ds.getD 6 0) + specTransform 7 (ds.getD 7 0)
  (10 - total % 10) % 10 = ds.getD 8 0

section StripLemmas

variable {p : Char → Bool}

/-- `dropWhile` keeps a list whose head fails the predicate. -/
theorem dropWhile_eq_self_of_head (l : List Char)
    (h : ∀ c, l.head? = some c → p c = false) : l.dropWhile p = l := by
  cases l with
  | nil => rfl
  | cons a t =>
    have ha : p a = false := h a rfl
    simp [List.dropWhile_cons, ha]

/-- The head of a `dropWhile` result fails the predicate. -/
theorem head_of_dropWhile_false {l : List Char} {c : Char}
    (h : (l.dropWhile p).head? = some c) : p c = false := by
  have := List.head?_dropWhile_not p l
  rw [h] at this
  exact this

/-- A list whose two ends fail the whitespace predicate is fixed by `pyStrip`. -/
theorem pyStrip_eq_self (t : PyStr)
    (h1 : ∀ c, t.head? = some c → pyIsSpace c = false)
    (h2 : ∀ c, t.getLast? = some c → pyIsSpace c = false) : pyStrip t = t := by
  have hl : lstrip t = t := dropWhile_eq_self_of_head t h1
  have hr : rstrip t = t := by
    unfold rstrip
    have : t.reverse.dropWhile pyIsSpace = t.reverse := by
      apply dropWhile_eq_self_of_head
      intro c hc
      rw [List.head?_reverse] at hc
      exact h2 c hc
    rw [this, List.reverse_reverse]
  unfold pyStrip
  rw [hl, hr]

/-- `dropWhile` produces a suffix of its input. -/
theorem dropWhile_isSuffix (l : List Char) : l.dropWhile p <:+ l := by
  induction l with
  | nil => exact List.suffix_refl _
  | cons a t ih =>
    by_cases h : p a
    · rw [List.dropWhile_cons_of_pos h]
      exact ih.trans (List.suffix_cons a t)
    · rw [List.dropWhile_cons_of_neg h]

/-- The last entry of a non-empty suffix is the last entry of the whole list. -/
theorem getLast?_of_suffix {l₁ l₂ : List Char} (h : l₁ <:+ l₂) (hne : l₁ ≠ []) :
    l₂.getLast? = l₁.getLast? := by
  obtain ⟨t, rfl⟩ := h
  exact List.getLast?_append_of_ne_nil t hne

/-- The head of `pyStrip s` is not whitespace. -/
theorem pyStrip_head_not_space (s : PyStr) :
    ∀ c, (pyStrip s).head? = some c → pyIsSpace c = false := by
  intro c hc
  unfold pyStrip rstrip at hc
  set u := (lstrip s).reverse.dropWhile pyIsSpace with hu
  rw [List.head?_reverse] at hc
  have hune : u ≠ [] := by
    intro h
    rw [h] at hc
    simp at hc
  have h1 : ((lstrip s).reverse).getLast? = u.getLast? :=
    getLast?_of_suffix (dropWhile_isSuffix _) hune
  rw [List.getLast?_reverse] at h1
  have h2 : (lstrip s).head? = some c := by rw [h1, hc]
  exact head_of_dropWhile_false h2

/-- The last entry of `pyStrip s` is not whitespace. -/
theorem pyStrip_getLast_not_space (s : PyStr) :
    ∀ c, (pyStrip s).getLast? = some c → pyIsSpace c = false := by
  intro c hc
  unfold pyStrip rstrip at hc
  rw [List.getLast?_reverse] at hc
  exact head_of_dropWhile_false hc

/-- Python `str.strip` is idempotent. -/
theorem pyStrip_idem (s : PyStr) : pyStrip (pyStrip s) = pyStrip s :=
  pyStrip_eq_self _ (pyStrip_head_not_space s) (pyStrip_getLast_not_space s)

/-- If stripping kills the whole string, every character was whitespace. -/
theorem all_space_of_pyStrip_nil {s : PyStr} (h : pyStrip s = []) :
    ∀ c ∈ s, pyIsSpace c = true := by
  intro c hc
  unfold pyStrip rstrip at h
  have h1 : (lstrip s).reverse.dropWhile pyIsSpace = [] := by
    have := congrArg List.reverse h
    simpa using this
  have h2 : ∀ x ∈ (lstrip s).reverse, pyIsSpace x := List.dropWhile_eq_nil_iff.mp h1
  have h3 : ∀ x ∈ lstrip s, pyIsSpace x = true := by
    intro x hx
    exact h2 x (List.mem_reverse.mpr hx)
  rcases List.mem_append.mp
      (by rw [List.takeWhile_append_dropWhile]; exact hc :
        c ∈ s.takeWhile pyIsSpace ++ s.dropWhile pyIsSpace) with htw | hdw
  · exact List.mem_takeWhile_imp htw
  · exact h3 c hdw

/-- A digit character is not whitespace. -/
theorem digit_not_space {c : Char} (h : c.isDigit = true) : pyIsSpace c = false := by
  simp only [Char.isDigit, Bool.and_eq_true, decide_eq_true_eq] at h
  have h1 : 48 ≤ c.toNat := h.1
  simp only [pyIsSpace, Bool.or_eq_false_iff, decide_eq_false_iff_not]
  omega

/-- A string of digits is fixed by `pyStrip`. -/
theorem pyStrip_of_digits {s : PyStr}
    (hd : s.all Char.isDigit = true) : pyStrip s = s := by
  apply pyStrip_eq_self
  · intro c hc
    have : c ∈ s := List.mem_of_mem_head? hc
    exact digit_not_space (List.all_eq_true.mp hd c this)
  · intro c hc
    have : c ∈ s := List.mem_of_mem_getLast? hc
    exact digit_not_space (List.all_eq_true.mp hd c this)

end StripLemmas

/-- A Python JSON-ish value as it appears in a request mapping:
a string, `None`, or a non-string scalar (modelled by integers). -/
inductive PyVal where
  | str : PyStr → PyVal
  | none : PyVal
  | int : Int → PyVal
deriving DecidableEq, Repr

/-- A Python dict with string keys, modelled as an association list
(keys are unique in a Python dict; lookups take the first match). -/
abbrev PyDict := List (String × PyVal)

/-- Trimming of one dict value in `UserValidator.sanitize_user_data`:
strings are stripped, everything else is kept as is. -/
def sanitizeVal : PyVal → PyVal
  | .str s => .str (pyStrip s)
  | v => v

/-- `UserValidator.sanitize_user_data` from `lib/validators.py`: rebuild the
dict, trimming whitespace from every string value. -/
def sanitize_user_data (user_data : PyDict) : PyDict :=
  user_data.map (fun kv => (kv.1, sanitizeVal kv.2))

/-- The four required fields of `BaseUserSchema` (`lib/schemas.py`). -/
def requiredFields : List String := ["id", "name", "phone", "address"]

/-- Field-level deserialization plus the custom `_validate` of the typed
fields in `lib/schemas.py`: `None` passes (`allow_none=True`), a non-string
fails Marshmallow string deserialization, an empty string is deferred to
schema-level validation, and any other string runs the matching
`UserValidator` check, reporting its message on failure. -/
def fieldError (f : String) (v : PyVal) : Option String :=
  match v with
  | .none => Option.none
  | .int _ => some NOT_A_VALID_STRING
  | .str s =>
    if s.isEmpty then Option.none
    else
      (if f = "id" then UserValidator.validate_israeli_id s
       else if f = "name" then UserValidator.validate_name s
       else if f = "phone" then UserValidator.validate_phone_number s
       else UserValidator.validate_address s).2

/-- Python truthiness of a dict value (`not data[field]`). -/
def pyFalsy : PyVal → Bool
  | .none => true
  | .str s => s.isEmpty
  | .int n => n = 0

/-- The per-field test of `BaseUserSchema.validate_required_fields`
(`lib/schemas.py` line 106): absent, falsy, or blank after stripping. -/
def fieldMissing (d : PyDict) (f : String) : Bool :=
  match List.lookup f d with
  | Option.none => true
  | some v => pyFalsy v || (match v with | .str s => (pyStrip s).isEmpty | _ => false)

/-- One value of a Marshmallow error mapping: a list of messages for a
field, or a plain message string. -/
inductive EVal where
  | list : List String → EVal
  | str : String → EVal
deriving DecidableEq, Repr

/-- A Marshmallow `ValidationError.messages` mapping. -/
abbrev ErrDict := List (String × EVal)

/-- The canonical four-field record produced by
`UserCreateSchema.make_user_data`. -/
structure CanonicalUser where
  id : PyStr
  name : PyStr
  phone : PyStr
  address : PyStr
deriving DecidableEq, Repr

/-- Read a string field out of a dict (total model of `data[field]` on the
success path, where the field is provably a present non-empty string). -/
def getStrField (d : PyDict) (f : String) : PyStr :=
  match List.lookup f d with
  | some (.str s) => s
  | _ => []

/-- `validate_user_create_data` from `lib/schemas.py`, i.e.
`UserCreateSchema().load(data)` under Marshmallow 3 semantics:
`@pre_load` sanitization, then field-level deserialization/validation of the
declared fields that are present, then — only when no field errors occurred,
since `@validates_schema` defaults to `skip_on_field_errors=True` — the
`validate_required_fields` schema check, then `@post_load` packing. -/
def validate_user_create_data (data : PyDict) : Except ErrDict CanonicalUser :=
  let sd := sanitize_user_data data
  let fieldErrs : ErrDict := requiredFields.filterMap (fun f =>
    match List.lookup f sd with
    | Option.none => Option.none
    | some v => (fieldError f v).map (fun m => (f, EVal.list [m])))
  if fieldErrs.isEmpty then
    let missing := requiredFields.filter (fun f => fieldMissing sd f)
    if missing.isEmpty then
      Except.ok
        { id := getStrField sd "id", name := getStrField sd "name",
          phone := getStrField sd "phone", address := getStrField sd "address" }
    else
      Except.error
        [("missing_fields", EVal.list missing),
         ("message", EVal.str ("Missing required fields: " ++ String.intercalate ", " missing))]
  else Except.error fieldErrs

/-- A value of a formatted response body. -/
inductive RVal where
  | str : String → RVal
  | strs : List String → RVal
  | pystr : PyStr → RVal
  | errs : ErrDict → RVal
deriving DecidableEq, Repr

/-- A formatted response body (a JSON object). -/
abbrev Response := List (String × RVal)

/-- The value stored under `missing_fields` by the formatter
(`errors['missing_fields']` in Python). -/
def missingFieldsValue (errors : ErrDict) : RVal :=
  match List.lookup "missing_fields" errors with
  | some (EVal.list l) => RVal.strs l
  | some (EVal.str s) => RVal.str s
  | Option.none => RVal.strs []

namespace ResponseTemplates

/-- `ResponseTemplates.validation_error_response` from `lib/messages.py`. -/
def validation_error_response (errors : ErrDict) : Response :=
  if errors.any (fun kv => kv.1 = "missing_fields") then
    [("error", RVal.str ErrorMessages.MISSING_REQUIRED_FIELDS),
     ("missing_fields", missingFieldsValue errors),
     ("required_fields", RVal.strs ["id", "name", "phone", "address"])]
  else
    [("error", RVal.str ErrorMessages.VALIDATION_FAILED),
     ("details", RVal.errs errors)]

/-- `ResponseTemplates.user_not_found_response` from `lib/messages.py`. -/
def user_not_found_response (user_id : PyStr) : Response :=
  [("error", RVal.str ErrorMessages.USER_NOT_FOUND),
   ("user_id", RVal.pystr user_id)]

/-- `ResponseTemplates.user_already_exists_response` from `lib/messages.py`. -/
def user_already_exists_response (user_id : PyStr) : Response :=
  [("error", RVal.str ErrorMessages.USER_ALREADY_EXISTS),
   ("user_id", RVal.pystr user_id)]

end ResponseTemplates

/-- A persisted row of the `users` table (`db/models.py`), timestamps as
abstract clock readings. -/
structure UserRec where
  id : PyStr
  name : PyStr
  phone : PyStr
  address : PyStr
  created_at : Nat
  updated_at : Nat
deriving DecidableEq, Repr

/-- The backing store: the rows of the `users` table in insertion order. -/
abbrev Store := List UserRec

/-- Errors a repository operation can surface: the storage uniqueness
violation (`sqlalchemy.exc.IntegrityError`) or the wrapped storage failure
(`DatabaseError`). -/
inductive DbErr where
  | integrityError : DbErr
  | databaseError : DbErr
deriving DecidableEq, Repr

/-- `User.update_info` from `db/models.py`: overwrite exactly the supplied
fields and refresh `updated_at` via `update_timestamp`. -/
def update_info (u : UserRec) (name phone address : Option PyStr) (now : Nat) : UserRec :=
  { u with
    name := name.getD u.name,
    phone := phone.getD u.phone,
    address := address.getD u.address,
    updated_at := now }

namespace UserRepository

/-- `DatabaseManager.session_scope` from `db/database.py`: run the
transaction body, committing the new state on success and rolling back to
the entry state on any exception. -/
def session_scope {α : Type} (op : Store → Except DbErr (α × Store)) (s : Store) :
    Except DbErr α × Store :=
  match op s with
  | Except.ok (a, s2) => (Except.ok a, s2)
  | Except.error e => (Except.error e, s)

/-- `UserRepository.create_user` from `db/database.py`: inside a session,
insert the row; the primary-key constraint on `id` raises `IntegrityError`
at flush when the id is already present; both timestamps are set to the
insertion time. -/
def create_user (user_data : CanonicalUser) (now : Nat) (s : Store) :
    Except DbErr UserRec × Store :=
  session_scope (fun st =>
    if st.any (fun u => u.id = user_data.id) then Except.error DbErr.integrityError
    else
      let u : UserRec :=
        { id := user_data.id, name := user_data.name, phone := user_data.phone,
          address := user_data.address, created_at := now, updated_at := now }
      Except.ok (u, st ++ [u])) s

/-- `UserRepository.get_user_by_id` from `db/database.py`: first row whose
`id` matches, or `None`. -/
def get_user_by_id (user_id : PyStr) (s : Store) :
    Except DbErr (Option UserRec) × Store :=
  session_scope (fun st =>
    Except.ok (st.find? (fun u => u.id = user_id), st)) s

/-- `UserRepository.update_user` from `db/database.py`: find the row; if
absent return `None` without touching the store, otherwise apply
`update_info` with the supplied partial data. -/
def update_user (user_id : PyStr) (name phone address : Option PyStr) (now : Nat)
    (s : Store) : Except DbErr (Option UserRec) × Store :=
  session_scope (fun st =>
    match st.find? (fun u => u.id = user_id) with
    | Option.none => Except.ok (Option.none, st)
    | some u =>
      let u2 := update_info u name phone address now
      Except.ok (some u2, st.map (fun v => if v.id = user_id then u2 else v))) s

/-- `UserRepository.delete_user` from `db/database.py`: delete the first
matching row and report `true`, or report `false` when no row matches. -/
def delete_user (user_id : PyStr) (s : Store) : Except DbErr Bool × Store :=
  session_scope (fun st =>
    if st.any (fun u => u.id = user_id) then
      Except.ok (true, st.eraseP (fun u => u.id = user_id))
    else Except.ok (false, st)) s

end UserRepository

/-- A list of length 9 is literally nine entries. -/
theorem length9_destruct (t : PyStr) (h : t.length = 9) :
    ∃ c0 c1 c2 c3 c4 c5 c6 c7 c8 : Char,
      t = [c0, c1, c2, c3, c4, c5, c6, c7, c8] := by
  obtain ⟨c0, t0, rfl⟩ := List.exists_of_length_succ t h
  have h0 : t0.length = 8 := by simpa using h
  obtain ⟨c1, t1, rfl⟩ := List.exists_of_length_succ t0 h0
  have h1 : t1.length = 7 := by simpa using h0
  obtain ⟨c2, t2, rfl⟩ := List.exists_of_length_succ t1 h1
  have h2 : t2.length = 6 := by simpa using h1
  obtain ⟨c3, t3, rfl⟩ := List.exists_of_length_succ t2 h2
  have h3 : t3.length = 5 := by simpa using h2
  obtain ⟨c4, t4, rfl⟩ := List.exists_of_length_succ t3 h3
  have h4 : t4.length = 4 := by simpa using h3
  obtain ⟨c5, t5, rfl⟩ := List.exists_of_length_succ t4 h4
  have h5 : t5.length = 3 := by simpa using h4
  obtain ⟨c6, t6, rfl⟩ := List.exists_of_length_succ t5 h5
  have h6 : t6.length = 2 := by simpa using h5
  obtain ⟨c7, t7, rfl⟩ := List.exists_of_length_succ t6 h6
  have h7 : t7.length = 1 := by simpa using h6
  obtain ⟨c8, t8, rfl⟩ := List.exists_of_length_succ t7 h7
  have h8 : t8.length = 0 := by simpa using h7
  have : t8 = [] := List.length_eq_zero.mp h8
  subst this
  exact ⟨c0, c1, c2, c3, c4, c5, c6, c7, c8, rfl⟩

/-- On a 9-character all-digit string the ID validator reduces to the
checksum comparison. -/
theorem validate_israeli_id_digits (t : PyStr) (hl : t.length = 9)
    (hd : t.all Char.isDigit = true) :
    UserValidator.validate_israeli_id t =
      if (10 - UserValidator.luhnAdd 0 t.dropLast % 10) % 10
          = digitVal (t.getLastD (Char.ofNat 48)) then (true, Option.none)
      else (false, some ErrorMessages.ISRAELI_ID_INVALID_CHECKSUM) := by
  have hne : t ≠ [] := by
    intro h
    rw [h] at hl
    simp at hl
  have hempty : t.isEmpty = false := by
    cases t with
    | nil => exact absurd rfl hne
    | cons a l => rfl
  have hstrip : pyStrip t = t := pyStrip_of_digits hd
  have hdig : pyIsDigit t = true := by
    simp [pyIsDigit, hempty, hd]
  unfold UserValidator.validate_israeli_id UserValidator.israeliIdChecks
  rw [hempty, hstrip, hdig, hl]
  simp only [Bool.false_eq_true, if_false, Bool.not_true, ne_eq, not_true_eq_false,
    ite_false]
  by_cases hc : (10 - UserValidator.luhnAdd 0 t.dropLast % 10) % 10
      = digitVal (t.getLastD (Char.ofNat 48))
  · simp [hc]
  · simp [hc]

/-- C2: for every 9-digit string the ID validator accepts exactly when the
spec's section 4.1 modulo-10 checksum holds (multiply digits at indices 0-7
by 1 at even and 2 at odd indices, reduce products over 9 by summing their
decimal digits, sum, and compare `(10 - (sum mod 10)) mod 10` with the 9th
digit); the known fixtures behave as stated and the three failure reasons
are pairwise distinct. -/
theorem C2_checksum_matches_spec :
    (∀ s : PyStr, s.length = 9 → s.all Char.isDigit = true →
      ((UserValidator.validate_israeli_id s).1 = true ↔
        specChecksumValid (s.map digitVal) = true)) ∧
    UserValidator.validate_israeli_id (toPy "123456782") = (true, Option.none) ∧
    UserValidator.validate_israeli_id (toPy "123456789") =
      (false, some ErrorMessages.ISRAELI_ID_INVALID_CHECKSUM) ∧
    UserValidator.validate_israeli_id (toPy "12345678") =
      (false, some ErrorMessages.ISRAELI_ID_WRONG_LENGTH) ∧
    UserValidator.validate_israeli_id (toPy "12345678a") =
      (false, some ErrorMessages.ISRAELI_ID_NOT_DIGITS) ∧
    ErrorMessages.ISRAELI_ID_INVALID_CHECKSUM ≠ ErrorMessages.ISRAELI_ID_WRONG_LENGTH ∧
    ErrorMessages.ISRAELI_ID_INVALID_CHECKSUM ≠ ErrorMessages.ISRAELI_ID_NOT_DIGITS ∧
    ErrorMessages.ISRAELI_ID_WRONG_LENGTH ≠ ErrorMessages.ISRAELI_ID_NOT_DIGITS := by
  refine ⟨?_, by decide, by decide, by decide, by decide, by decide, by decide, by decide⟩
  intro s hl hd
  obtain ⟨c0, c1, c2, c3, c4, c5, c6, c7, c8, rfl⟩ := length9_destruct s hl
  rw [validate_israeli_id_digits _ hl hd]
  have hdrop : ([c0, c1, c2, c3, c4, c5, c6, c7, c8] : PyStr).dropLast
      = [c0, c1, c2, c3, c4, c5, c6, c7] := rfl
  have hlast : ([c0, c1, c2, c3, c4, c5, c6, c7, c8] : PyStr).getLastD (Char.ofNat 48)
      = c8 := rfl
  rw [hdrop, hlast]
  have htot : UserValidator.luhnAdd 0 [c0, c1, c2, c3, c4, c5, c6, c7]
      = specTransform 0 (digitVal c0) + specTransform 1 (digitVal c1) +
        specTransform 2 (digitVal c2) + specTransform 3 (digitVal c3) +
        specTransform 4 (digitVal c4) + specTransform 5 (digitVal c5) +
        specTransform 6 (digitVal c6) + specTransform 7 (digitVal c7) := by
    simp [UserValidator.luhnAdd, specTransform]
    omega
  have hspec : specChecksumValid (([c0, c1, c2, c3, c4, c5, c6, c7, c8] : PyStr).map digitVal)
      = decide ((10 - (specTransform 0 (digitVal c0) + specTransform 1 (digitVal c1) +
        specTransform 2 (digitVal c2) + specTransform 3 (digitVal c3) +
        specTransform 4 (digitVal c4) + specTransform 5 (digitVal c5) +
        specTransform 6 (digitVal c6) + specTransform 7 (digitVal c7)) % 10) % 10
          = digitVal c8) := rfl
  rw [hspec, htot]
  by_cases hX : (10 - (specTransform 0 (digitVal c0) + specTransform 1 (digitVal c1) +
      specTransform 2 (digitVal c2) + specTransform 3 (digitVal c3) +
      specTransform 4 (digitVal c4) + specTransform 5 (digitVal c5) +
      specTransform 6 (digitVal c6) + specTransform 7 (digitVal c7)) % 10) % 10
        = digitVal c8
  · simp [hX]
  · simp [hX]

/-- Witness for C2 at the fixture `"123456782"`. -/
theorem C2_checksum_matches_spec_witness :
    specChecksumValid ((toPy "123456782").map digitVal) = true ∧
    (UserValidator.validate_israeli_id (toPy "123456782")).1 = true :=
  ⟨(C2_checksum_matches_spec.1 (toPy "123456782") (by decide) (by decide)).mp (by decide),
    by decide⟩

/-- A non-empty list has `isEmpty = false`. -/
theorem isEmpty_false_of_ne_nil {l : PyStr} (h : l ≠ []) : l.isEmpty = false := by
  cases l with
  | nil => exact absurd rfl h
  | cons a t => rfl

/-- Counterexample for C3: `"+1234567"` is `+` followed by 7 digits, so the
claim (accept exactly when 7 <= k <= 16) demands acceptance, but the code
rejects it with the wrong-length reason (it requires at least 8 digits). -/
theorem C3_counterexample :
    ((toPy "+1234567").drop 1).all Char.isDigit = true ∧
    ((toPy "+1234567").drop 1).length = 7 ∧ 7 ≤ 7 ∧ 7 ≤ 16 ∧
    UserValidator.validate_phone_number (toPy "+1234567")
      = (false, some ErrorMessages.PHONE_WRONG_LENGTH) := by decide

/-- C3 (amended): for every string consisting of `+` followed by k digits,
`validate_phone_number` accepts exactly when 8 <= k <= 16, i.e. exactly when
the total length including the `+` is between 9 and 17 characters. -/
theorem C3_phone_accepts_iff (ds : List Char) (hd : ds.all Char.isDigit = true) :
    ((UserValidator.validate_phone_number ('+' :: ds)).1 = true
      ↔ (8 ≤ ds.length ∧ ds.length ≤ 16)) := by
  cases ds with
  | nil => decide
  | cons a l =>
    have hd2 : (a :: l).all Char.isDigit = true := hd
    have hstrip : pyStrip ('+' :: a :: l) = '+' :: a :: l := by
      apply pyStrip_eq_self
      · intro c hc
        simp only [List.head?_cons, Option.some.injEq] at hc
        rw [← hc]
        decide
      · intro c hc
        rw [List.getLast?_cons_cons] at hc
        have hmem : c ∈ a :: l := List.mem_of_mem_getLast? hc
        exact digit_not_space (List.all_eq_true.mp hd2 c hmem)
    unfold UserValidator.validate_phone_number
    rw [isEmpty_false_of_ne_nil (by simp), hstrip]
    have hdig : pyIsDigit (a :: l) = true := by
      simp [pyIsDigit, hd2]
    simp only [UserValidator.phoneChecks, List.drop_succ_cons, List.drop_zero, hdig,
      apply_ite (Prod.fst (α := Bool) (β := Option String)), List.length_cons]
    simp


/-- Witness for C3 (amended) at `"+12345678"` (8 digits). -/
theorem C3_phone_accepts_iff_witness :
    (UserValidator.validate_phone_number ('+' :: toPy "12345678")).1 = true :=
  (C3_phone_accepts_iff (toPy "12345678") (by decide)).mpr (by decide)

/-- C10: the ID and phone validators strip the input themselves: on any
string with at least one non-whitespace character they agree, verdict and
reason, with their own value on the trimmed form of the input. -/
theorem C10_validators_trim_input (s : PyStr) (h : ∃ c ∈ s, pyIsSpace c = false) :
    UserValidator.validate_israeli_id s
        = UserValidator.validate_israeli_id (pyStrip s) ∧
    UserValidator.validate_phone_number s
        = UserValidator.validate_phone_number (pyStrip s) := by
  obtain ⟨c, hcs, hcns⟩ := h
  have hne : s ≠ [] := by
    intro h
    rw [h] at hcs
    simp at hcs
  have hsne : pyStrip s ≠ [] := by
    intro h
    have := all_space_of_pyStrip_nil h c hcs
    rw [hcns] at this
    exact Bool.false_ne_true this
  have he1 : s.isEmpty = false := isEmpty_false_of_ne_nil hne
  have he2 : (pyStrip s).isEmpty = false := isEmpty_false_of_ne_nil hsne
  constructor
  · unfold UserValidator.validate_israeli_id
    rw [he1, he2, pyStrip_idem]
  · unfold UserValidator.validate_phone_number
    rw [he1, he2, pyStrip_idem]

/-- `digitVal` is injective on digit characters. -/
theorem digitVal_inj {c d : Char} (hc : c.isDigit = true) (hd : d.isDigit = true)
    (h : digitVal c = digitVal d) : c = d := by
  simp only [Char.isDigit, Bool.and_eq_true, decide_eq_true_eq] at hc hd
  have hc1 : 48 ≤ c.toNat := hc.1
  have hd1 : 48 ≤ d.toNat := hd.1
  have : c.toNat = d.toNat := by
    simp only [digitVal] at h
    omega
  exact Char.eq_of_val_eq (UInt32.ext this)

/-- An accepted ID means: the stripped input is nine digits whose checksum
comparison succeeds. -/
theorem validate_israeli_id_true_inv {s : PyStr}
    (h : (UserValidator.validate_israeli_id s).1 = true) :
    pyIsDigit (pyStrip s) = true ∧ (pyStrip s).length = 9 ∧
    (10 - UserValidator.luhnAdd 0 (pyStrip s).dropLast % 10) % 10
      = digitVal ((pyStrip s).getLastD (Char.ofNat 48)) := by
  unfold UserValidator.validate_israeli_id at h
  by_cases he : s.isEmpty = true
  · rw [if_pos he] at h
    simp at h
  · rw [if_neg he] at h
    unfold UserValidator.israeliIdChecks at h
    cases hdig : pyIsDigit (pyStrip s) with
    | false =>
      rw [hdig] at h
      simp at h
    | true =>
      rw [hdig] at h
      simp only [Bool.not_true, Bool.false_eq_true, if_false] at h
      by_cases hl : (pyStrip s).length = 9
      · rw [if_neg (by simp [hl])] at h
        by_cases hcs : (10 - UserValidator.luhnAdd 0 (pyStrip s).dropLast % 10) % 10
            = digitVal ((pyStrip s).getLastD (Char.ofNat 48))
        · exact ⟨rfl, hl, hcs⟩
        · rw [if_pos (by simpa using hcs)] at h
          simp at h
      · rw [if_pos (by simpa using hl)] at h
        simp at h

/-- C4: replacing the last digit of an accepted ID by any different digit
produces a string the validator rejects with the checksum-mismatch reason
(equivalently, for a fixed 8-digit body exactly the one matching checksum
digit is accepted). -/
theorem C4_last_digit_determined (s : PyStr)
    (hv : (UserValidator.validate_israeli_id s).1 = true) (c : Char)
    (hc : c.isDigit = true) (hne : c ≠ (pyStrip s).getLastD (Char.ofNat 48)) :
    UserValidator.validate_israeli_id ((pyStrip s).take 8 ++ [c])
      = (false, some ErrorMessages.ISRAELI_ID_INVALID_CHECKSUM) := by
  obtain ⟨hdig, hlen, hcs⟩ := validate_israeli_id_true_inv hv
  set t := pyStrip s with ht
  have htd : t.all Char.isDigit = true := by
    simp only [pyIsDigit, Bool.and_eq_true] at hdig
    exact hdig.2
  have htne : t ≠ [] := by
    intro h
    rw [h] at hlen
    simp at hlen
  have hlast_mem : t.getLastD (Char.ofNat 48) ∈ t := by
    have : t.getLast? = some (t.getLast htne) := List.getLast?_eq_getLast_of_ne_nil htne
    rw [List.getLastD_eq_getLast?, this]
    exact List.mem_of_mem_getLast? (by rw [this]; rfl)
  have hlast_digit : (t.getLastD (Char.ofNat 48)).isDigit = true :=
    List.all_eq_true.mp htd _ hlast_mem
  have hu_len : (t.take 8 ++ [c]).length = 9 := by
    simp [List.length_take, hlen]
  have hu_dig : (t.take 8 ++ [c]).all Char.isDigit = true := by
    rw [List.all_append]
    have h1 : (t.take 8).all Char.isDigit = true := by
      refine List.all_eq_true.mpr ?_
      intro x hx
      exact List.all_eq_true.mp htd x (List.mem_of_mem_take hx)
    simp [h1, hc]
  rw [validate_israeli_id_digits _ hu_len hu_dig]
  have hdl : (t.take 8 ++ [c]).dropLast = t.take 8 := by simp
  have hld : (t.take 8 ++ [c]).getLastD (Char.ofNat 48) = c := by simp
  have htake : t.dropLast = t.take 8 := by
    rw [List.dropLast_eq_take, hlen]
  rw [hdl, hld, ← htake]
  rw [if_neg]
  intro hcontra
  apply hne
  apply digitVal_inj hc hlast_digit
  rw [← hcontra, hcs]

/-- Witness for C4: the valid fixture with its checksum digit replaced by 3. -/
theorem C4_last_digit_determined_witness :
    UserValidator.validate_israeli_id ((pyStrip (toPy "123456782")).take 8 ++ ['3'])
      = (false, some ErrorMessages.ISRAELI_ID_INVALID_CHECKSUM) :=
  C4_last_digit_determined (toPy "123456782") (by decide) '3' (by decide) (by decide)

/-- Witness for C10 at a valid ID surrounded by whitespace. -/
theorem C10_validators_trim_input_witness :
    UserValidator.validate_israeli_id (toPy " 123456782 ")
        = UserValidator.validate_israeli_id (pyStrip (toPy " 123456782 ")) ∧
    (UserValidator.validate_israeli_id (toPy " 123456782 ")).1 = true :=
  ⟨(C10_validators_trim_input (toPy " 123456782 ") (by decide)).1, by decide⟩

/-- Equality of `Except` results is decidable componentwise. -/
instance {ε α : Type} [DecidableEq ε] [DecidableEq α] : DecidableEq (Except ε α) := by
  intro x y
  cases x with
  | ok a =>
    cases y with
    | ok b =>
      exact if h : a = b then Decidable.isTrue (by rw [h])
        else Decidable.isFalse (by intro hc; exact h (Except.ok.inj hc))
    | error e => exact Decidable.isFalse (by intro hc; exact Except.noConfusion hc)
  | error e =>
    cases y with
    | ok b => exact Decidable.isFalse (by intro hc; exact Except.noConfusion hc)
    | error e2 =>
      exact if h : e = e2 then Decidable.isTrue (by rw [h])
        else Decidable.isFalse (by intro hc; exact h (Except.error.inj hc))

/-- Trimming one dict value is idempotent. -/
theorem sanitizeVal_idem (v : PyVal) : sanitizeVal (sanitizeVal v) = sanitizeVal v := by
  cases v with
  | str s => simp [sanitizeVal, pyStrip_idem]
  | none => rfl
  | int n => rfl

/-- C7: the sanitizer trims every string value, keeps every key and every
non-string value unchanged, and is idempotent. -/
theorem C7_sanitize_user_data (d : PyDict) :
    sanitize_user_data (sanitize_user_data d) = sanitize_user_data d ∧
    (sanitize_user_data d).map Prod.fst = d.map Prod.fst ∧
    (∀ (k : String) (v : PyVal), (k, v) ∈ d → (k, sanitizeVal v) ∈ sanitize_user_data d) := by
  refine ⟨?_, ?_, ?_⟩
  · unfold sanitize_user_data
    rw [List.map_map]
    apply List.map_congr_left
    intro kv _
    simp [Function.comp, sanitizeVal_idem]
  · unfold sanitize_user_data
    rw [List.map_map]
    rfl
  · intro k v hkv
    unfold sanitize_user_data
    exact List.mem_map.mpr ⟨(k, v), hkv, rfl⟩

/-- Witness for C7 on a small concrete mapping. -/
theorem C7_sanitize_user_data_witness :
    sanitize_user_data (sanitize_user_data
        [("name", PyVal.str (toPy " a ")), ("x", PyVal.int 5)])
      = sanitize_user_data [("name", PyVal.str (toPy " a ")), ("x", PyVal.int 5)] ∧
    ("name", sanitizeVal (PyVal.str (toPy " a ")))
      ∈ sanitize_user_data [("name", PyVal.str (toPy " a ")), ("x", PyVal.int 5)] :=
  ⟨(C7_sanitize_user_data [("name", PyVal.str (toPy " a ")), ("x", PyVal.int 5)]).1,
    (C7_sanitize_user_data [("name", PyVal.str (toPy " a ")), ("x", PyVal.int 5)]).2.2
      "name" (PyVal.str (toPy " a ")) (by decide)⟩

/-- Counterexample for C1: the input supplies only `phone`, with an invalid
value, so `id`, `name` and `address` are all missing; the claim demands the
aggregated missing-fields error with no per-field errors, but the pipeline
reports the per-field phone error and no `missing_fields` key (Marshmallow
skips schema-level validation when a field-level error occurred). -/
theorem C1_counterexample :
    fieldMissing (sanitize_user_data [("phone", PyVal.str (toPy "abc"))]) "id" = true ∧
    fieldMissing (sanitize_user_data [("phone", PyVal.str (toPy "abc"))]) "name" = true ∧
    fieldMissing (sanitize_user_data [("phone", PyVal.str (toPy "abc"))]) "address" = true ∧
    validate_user_create_data [("phone", PyVal.str (toPy "abc"))]
      = Except.error [("phone", EVal.list [ErrorMessages.PHONE_NO_PLUS])] ∧
    (([("phone", EVal.list [ErrorMessages.PHONE_NO_PLUS])] : ErrDict).any
      (fun kv => kv.1 = "missing_fields")) = false := by decide

/-- C1 (amended): when every supplied required-field value passes its
field-level check (in particular when it is `None` or empty) and at least
one required field is absent, `None`, or blank after trimming, the create
pipeline fails with the single aggregated error listing exactly the missing
field names and no per-field errors; but a supplied value that fails its
field validator produces per-field errors instead and suppresses the
aggregated missing-fields error. -/
theorem C1_missing_fields_aggregation (d : PyDict)
    (hok : requiredFields.all (fun f =>
      match List.lookup f (sanitize_user_data d) with
      | Option.none => true
      | some v => (fieldError f v).isNone) = true)
    (hmiss : (requiredFields.filter
      (fun f => fieldMissing (sanitize_user_data d) f)).isEmpty = false) :
    validate_user_create_data d
      = Except.error
          [("missing_fields", EVal.list (requiredFields.filter
              (fun f => fieldMissing (sanitize_user_data d) f))),
           ("message", EVal.str ("Missing required fields: " ++
             String.intercalate ", " (requiredFields.filter
               (fun f => fieldMissing (sanitize_user_data d) f))))] := by
  have hfe : (requiredFields.filterMap (fun f =>
      match List.lookup f (sanitize_user_data d) with
      | Option.none => Option.none
      | some v => (fieldError f v).map (fun m => (f, EVal.list [m]))))
        = ([] : ErrDict) := by
    rw [List.filterMap_eq_nil_iff]
    intro f hf
    have hall := List.all_eq_true.mp hok f hf
    cases hlook : List.lookup f (sanitize_user_data d) with
    | none => simp
    | some v =>
      rw [hlook] at hall
      simp only [Option.isNone_iff_eq_none] at hall
      simp [hall]
  simp only [validate_user_create_data, hfe, List.isEmpty_nil, if_true, hmiss,
    Bool.false_eq_true, if_false]

/-- Witness for C1 (amended): supplying only a valid name and phone yields
`missing_fields` exactly `[id, address]`. -/
theorem C1_missing_fields_aggregation_witness :
    validate_user_create_data
        [("name", PyVal.str (toPy "John Doe")), ("phone", PyVal.str (toPy "+972501234567"))]
      = Except.error
          [("missing_fields", EVal.list (requiredFields.filter
              (fun f => fieldMissing (sanitize_user_data
                [("name", PyVal.str (toPy "John Doe")),
                 ("phone", PyVal.str (toPy "+972501234567"))]) f))),
           ("message", EVal.str ("Missing required fields: " ++
             String.intercalate ", " (requiredFields.filter
               (fun f => fieldMissing (sanitize_user_data
                 [("name", PyVal.str (toPy "John Doe")),
                  ("phone", PyVal.str (toPy "+972501234567"))]) f))))] ∧
    requiredFields.filter
        (fun f => fieldMissing (sanitize_user_data
          [("name", PyVal.str (toPy "John Doe")),
           ("phone", PyVal.str (toPy "+972501234567"))]) f) = ["id", "address"] :=
  ⟨C1_missing_fields_aggregation
      [("name", PyVal.str (toPy "John Doe")), ("phone", PyVal.str (toPy "+972501234567"))]
      (by decide) (by decide),
    by decide⟩


/-- C9: the response formatter maps an error set containing `missing_fields`
to the aggregated shape with `required_fields` exactly
`[id, name, phone, address]`, any other validation error set to the
per-field `details` shape, and the not-found and duplicate outcomes to
bodies carrying the offending id. -/
theorem C9_response_formatter :
    (∀ errors : ErrDict,
      (errors.any (fun kv => kv.1 = "missing_fields") = true →
        ResponseTemplates.validation_error_response errors
          = [("error", RVal.str ErrorMessages.MISSING_REQUIRED_FIELDS),
             ("missing_fields", missingFieldsValue errors),
             ("required_fields", RVal.strs ["id", "name", "phone", "address"])]) ∧
      (errors.any (fun kv => kv.1 = "missing_fields") = false →
        ResponseTemplates.validation_error_response errors
          = [("error", RVal.str ErrorMessages.VALIDATION_FAILED),
             ("details", RVal.errs errors)])) ∧
    (∀ user_id : PyStr,
      ResponseTemplates.user_not_found_response user_id
          = [("error", RVal.str ErrorMessages.USER_NOT_FOUND),
             ("user_id", RVal.pystr user_id)] ∧
      ResponseTemplates.user_already_exists_response user_id
          = [("error", RVal.str ErrorMessages.USER_ALREADY_EXISTS),
             ("user_id", RVal.pystr user_id)]) := by
  constructor
  · intro errors
    constructor
    · intro h
      unfold ResponseTemplates.validation_error_response
      rw [if_pos h]
    · intro h
      unfold ResponseTemplates.validation_error_response
      rw [if_neg (by simp [h])]
  · intro user_id
    exact ⟨rfl, rfl⟩

/-- Witness for C9 on concrete error sets and a concrete id. -/
theorem C9_response_formatter_witness :
    ResponseTemplates.validation_error_response [("missing_fields", EVal.list ["id"])]
      = [("error", RVal.str ErrorMessages.MISSING_REQUIRED_FIELDS),
         ("missing_fields", missingFieldsValue [("missing_fields", EVal.list ["id"])]),
         ("required_fields", RVal.strs ["id", "name", "phone", "address"])] ∧
    ResponseTemplates.validation_error_response
        [("phone", EVal.list [ErrorMessages.PHONE_NO_PLUS])]
      = [("error", RVal.str ErrorMessages.VALIDATION_FAILED),
         ("details", RVal.errs [("phone", EVal.list [ErrorMessages.PHONE_NO_PLUS])])] ∧
    ResponseTemplates.user_not_found_response (toPy "123456782")
      = [("error", RVal.str ErrorMessages.USER_NOT_FOUND),
         ("user_id", RVal.pystr (toPy "123456782"))] :=
  ⟨(C9_response_formatter.1 [("missing_fields", EVal.list ["id"])]).1 (by decide),
    (C9_response_formatter.1 [("phone", EVal.list [ErrorMessages.PHONE_NO_PLUS])]).2
      (by decide),
    (C9_response_formatter.2 (toPy "123456782")).1⟩

/-- C8: `session_scope` commits only on success: whenever the wrapped
operation reports an error the store is exactly the entry store, and in
particular a duplicate-id create leaves the stored records untouched. -/
theorem C8_session_scope_rollback :
    (∀ (α : Type) (op : Store → Except DbErr (α × Store)) (st : Store) (e : DbErr),
      (UserRepository.session_scope op st).1 = Except.error e →
        (UserRepository.session_scope op st).2 = st) ∧
    (∀ (data : CanonicalUser) (now : Nat) (st : Store),
      st.any (fun u => u.id = data.id) = true →
        (UserRepository.create_user data now st).2 = st) := by
  constructor
  · intro α op st e h
    unfold UserRepository.session_scope at h ⊢
    cases hop : op st with
    | ok p =>
      rw [hop] at h
      obtain ⟨a, s2⟩ := p
      simp at h
    | error e2 => rfl
  · intro data now st h
    simp [UserRepository.create_user, UserRepository.session_scope, h]

/-- Witness for C8: a failing operation on the empty store leaves it empty. -/
theorem C8_session_scope_rollback_witness :
    (UserRepository.session_scope
        (fun _ : Store => (Except.error DbErr.databaseError : Except DbErr (Bool × Store)))
        []).2 = [] :=
  C8_session_scope_rollback.1 Bool
    (fun _ => Except.error DbErr.databaseError) [] DbErr.databaseError rfl

/-- With no duplicate ids in the store, erasing the first row matching an id
leaves no row with that id. -/
theorem eraseP_removes_id (uid : PyStr) :
    ∀ st : Store, (st.map UserRec.id).Nodup →
      (st.eraseP (fun u => u.id = uid)).all (fun u => !(u.id = uid)) = true := by
  intro st
  induction st with
  | nil => intro _; rfl
  | cons u rest ih =>
    intro hnd
    rw [List.map_cons, List.nodup_cons] at hnd
    by_cases hm : u.id = uid
    · rw [List.eraseP_cons_of_pos (by simp [hm])]
      refine List.all_eq_true.mpr ?_
      intro v hv
      have hne : v.id ≠ uid := by
        intro hveq
        apply hnd.1
        rw [hm, ← hveq]
        exact List.mem_map.mpr ⟨v, hv, rfl⟩
      simp [hne]
    · rw [List.eraseP_cons_of_neg (by simp [hm])]
      rw [List.all_cons]
      exact Bool.and_eq_true_iff.mpr ⟨by simp [hm], ih hnd.2⟩

/-- On a store without the id, `create_user` appends the new row with both
timestamps set to the insertion time. -/
theorem create_user_not_present {data : CanonicalUser} {now : Nat} {st : Store}
    (h : st.any (fun u => u.id = data.id) = false) :
    UserRepository.create_user data now st
      = (Except.ok (UserRec.mk data.id data.name data.phone data.address now now),
         st ++ [UserRec.mk data.id data.name data.phone data.address now now]) := by
  simp [UserRepository.create_user, UserRepository.session_scope, h]

/-- C5: creating an id already present fails with the duplicate condition
(so the second of two creates with one id fails while the first succeeds),
reading an absent id yields an explicit `None`, and deleting an absent id
returns `false` while deleting a present id returns `true` and removes the
record. -/
theorem C5_repository_outcomes :
    (∀ (data : CanonicalUser) (now : Nat) (st : Store),
      st.any (fun u => u.id = data.id) = true →
        UserRepository.create_user data now st = (Except.error DbErr.integrityError, st)) ∧
    (∀ (data : CanonicalUser) (now now2 : Nat) (st : Store),
      st.any (fun u => u.id = data.id) = false →
        (∃ u : UserRec, UserRepository.create_user data now st = (Except.ok u, st ++ [u]) ∧
          u.id = data.id) ∧
        UserRepository.create_user data now2 (UserRepository.create_user data now st).2
          = (Except.error DbErr.integrityError, (UserRepository.create_user data now st).2)) ∧
    (∀ (user_id : PyStr) (st : Store),
      st.find? (fun u => u.id = user_id) = Option.none →
        UserRepository.get_user_by_id user_id st = (Except.ok Option.none, st)) ∧
    (∀ (user_id : PyStr) (st : Store),
      (st.any (fun u => u.id = user_id) = false →
        UserRepository.delete_user user_id st = (Except.ok false, st)) ∧
      (st.any (fun u => u.id = user_id) = true →
        UserRepository.delete_user user_id st
          = (Except.ok true, st.eraseP (fun u => u.id = user_id)) ∧
        ((st.map UserRec.id).Nodup →
          (st.eraseP (fun u => u.id = user_id)).all (fun u => !(u.id = user_id)) = true))) := by
  refine ⟨?_, ?_, ?_, ?_⟩
  · intro data now st h
    simp [UserRepository.create_user, UserRepository.session_scope, h]
  · intro data now now2 st h
    refine ⟨⟨_, create_user_not_present h, rfl⟩, ?_⟩
    rw [create_user_not_present h]
    have hdup : ((st ++ [UserRec.mk data.id data.name data.phone data.address now now]).any
        (fun u => u.id = data.id)) = true := by
      rw [List.any_append]
      simp
    simp [UserRepository.create_user, UserRepository.session_scope, hdup]
  · intro user_id st h
    simp [UserRepository.get_user_by_id, UserRepository.session_scope, h]
  · intro user_id st
    constructor
    · intro h
      simp [UserRepository.delete_user, UserRepository.session_scope, h]
    · intro h
      refine ⟨by simp [UserRepository.delete_user, UserRepository.session_scope, h], ?_⟩
      intro hnd
      exact eraseP_removes_id user_id st hnd

/-- Witness for C5 on concrete stores. -/
theorem C5_repository_outcomes_witness :
    UserRepository.create_user
        (CanonicalUser.mk (toPy "123456782") (toPy "John Doe")
          (toPy "+972501234567") (toPy "123 Main St")) 1
        (UserRepository.create_user
          (CanonicalUser.mk (toPy "123456782") (toPy "John Doe")
            (toPy "+972501234567") (toPy "123 Main St")) 0 []).2
      = (Except.error DbErr.integrityError,
         (UserRepository.create_user
           (CanonicalUser.mk (toPy "123456782") (toPy "John Doe")
             (toPy "+972501234567") (toPy "123 Main St")) 0 []).2) ∧
    UserRepository.get_user_by_id (toPy "999999999") [] = (Except.ok Option.none, []) ∧
    UserRepository.delete_user (toPy "999999999") [] = (Except.ok false, []) :=
  ⟨((C5_repository_outcomes.2.1
      (CanonicalUser.mk (toPy "123456782") (toPy "John Doe")
        (toPy "+972501234567") (toPy "123 Main St")) 0 1 [])
      (by decide)).2,
    C5_repository_outcomes.2.2.1 (toPy "999999999") [] (by decide),
    (C5_repository_outcomes.2.2.2 (toPy "999999999") []).1 (by decide)⟩

/-- C6: updating an absent id returns not-found and changes nothing; on a
present id it overwrites exactly the supplied fields, leaves unsupplied ones
unchanged, never changes `id` or `created_at`, sets `updated_at` to the
fresh timestamp, and leaves every other record in place. -/
theorem C6_update_semantics :
    (∀ (user_id : PyStr) (name phone address : Option PyStr) (now : Nat) (st : Store),
      st.find? (fun u => u.id = user_id) = Option.none →
        UserRepository.update_user user_id name phone address now st
          = (Except.ok Option.none, st)) ∧
    (∀ (user_id : PyStr) (name phone address : Option PyStr) (now : Nat) (st : Store)
        (u : UserRec),
      st.find? (fun v => v.id = user_id) = some u →
        UserRepository.update_user user_id name phone address now st
          = (Except.ok (some (update_info u name phone address now)),
             st.map (fun v => if v.id = user_id
               then update_info u name phone address now else v)) ∧
        (update_info u name phone address now).id = u.id ∧
        (update_info u name phone address now).created_at = u.created_at ∧
        (update_info u name phone address now).updated_at = now ∧
        (update_info u name phone address now).name = name.getD u.name ∧
        (update_info u name phone address now).phone = phone.getD u.phone ∧
        (update_info u name phone address now).address = address.getD u.address ∧
        (∀ v ∈ st, v.id ≠ user_id →
          v ∈ (UserRepository.update_user user_id name phone address now st).2)) := by
  constructor
  · intro user_id name phone address now st h
    simp [UserRepository.update_user, UserRepository.session_scope, h]
  · intro user_id name phone address now st u h
    have hupd : UserRepository.update_user user_id name phone address now st
        = (Except.ok (some (update_info u name phone address now)),
           st.map (fun v => if v.id = user_id
             then update_info u name phone address now else v)) := by
      simp [UserRepository.update_user, UserRepository.session_scope, h]
    refine ⟨hupd, rfl, rfl, rfl, rfl, rfl, rfl, ?_⟩
    intro v hv hvne
    rw [hupd]
    exact List.mem_map.mpr ⟨v, hv, by simp [hvne]⟩

/-- Witness for C6 on a one-row store: a partial update changing only the
name keeps phone, address, id and creation time, and refreshes the clock. -/
theorem C6_update_semantics_witness :
    UserRepository.update_user (toPy "123456782") (some (toPy "Jane Doe"))
        Option.none Option.none 5
        [UserRec.mk (toPy "123456782") (toPy "John Doe")
          (toPy "+972501234567") (toPy "123 Main St") 0 0]
      = (Except.ok (some (UserRec.mk (toPy "123456782") (toPy "Jane Doe")
          (toPy "+972501234567") (toPy "123 Main St") 0 5)),
         [UserRec.mk (toPy "123456782") (toPy "Jane Doe")
           (toPy "+972501234567") (toPy "123 Main St") 0 5]) ∧
    UserRepository.update_user (toPy "999999999") (some (toPy "Jane Doe"))
        Option.none Option.none 5 [] = (Except.ok Option.none, []) := by
  constructor
  · have h := (C6_update_semantics.2 (toPy "123456782") (some (toPy "Jane Doe"))
      Option.none Option.none 5
      [UserRec.mk (toPy "123456782") (toPy "John Doe")
        (toPy "+972501234567") (toPy "123 Main St") 0 0]
      (UserRec.mk (toPy "123456782") (toPy "John Doe")
        (toPy "+972501234567") (toPy "123 Main St") 0 0) (by decide)).1
    rw [h]
    decide
  · exact C6_update_semantics.1 (toPy "999999999") (some (toPy "Jane Doe"))
      Option.none Option.none 5 [] (by decide)
